import Mathlib

/-!
Verification development for the Geg repository: two browser arcade-driving
variants built on a scene graph.  The main variant lives in
`src/src/components/Game.tsx` (namespace `UrbanDrive` below); a simpler
night-city variant lives in `src/unnamed/part_000` (namespace `NightCity`).

Modelling conventions:
* JavaScript numbers are modelled as rationals (`ℚ`).  The claims under
  study concern exact arithmetic relations (clamping, sign inversion,
  grid displacement), so the real-valued dynamics are embedded over `ℚ`.
* The three transcendental values consumed by the per-frame update —
  `Math.pow(CAR_FRICTION, delta * 60)`, `Math.sin(rotation)` and
  `Math.cos(rotation)` (the latter two taken at the frame's updated
  rotation) — are supplied to the embedded update as explicit oracle
  fields of `FrameInput` (`fricPow`, `sinRot`, `cosRot`).  Theorems
  quantify over them; where a property needs a fact about the true
  value (`0 < pow(0.992, 60·δ) < 1` for `δ > 0`) that fact is taken as a
  hypothesis, justified over `ℝ` by `frictionFactor_pos_lt_one` below.
* Angles stored in generated world data (`rotPi` fields) are recorded as
  multiples of π, because the source stores `0`, `Math.PI / 2`, `Math.PI`
  or `Math.random() * Math.PI` and π is irrational.
* Colors of generated buildings are a pure function of the stored `hue`
  and `type` fields (`setHSL(hue, 0.4, 0.4)` with fixed hex overrides for
  types 4–7), so the embedding records `hue` and `type` only.
-/

namespace UrbanDrive

/-- `const CAR_ACCELERATION = 0.6` -/
def CAR_ACCELERATION : ℚ := 0.6
/-- `const CAR_BRAKE = 1.2` -/
def CAR_BRAKE : ℚ := 1.2
/-- `const CAR_FRICTION = 0.992` (base of the per-frame friction power) -/
def CAR_FRICTION : ℚ := 0.992
/-- `const CAR_STEER_SPEED = 0.04` -/
def CAR_STEER_SPEED : ℚ := 0.04
/-- `const CAR_MAX_SPEED = 1.8` -/
def CAR_MAX_SPEED : ℚ := 1.8

/-- JavaScript `Math.round`: nearest integer, ties toward `+∞`. -/
def jsRound (q : ℚ) : ℤ := ⌊q + 1 / 2⌋

/-- `THREE.MathUtils.clamp(value, min, max) = Math.max(min, Math.min(max, value))`. -/
def clamp (v lo hi : ℚ) : ℚ := max lo (min hi v)

/-- `THREE.MathUtils.lerp(x, y, t) = (1 - t) * x + t * y`. -/
def lerp (x y t : ℚ) : ℚ := (1 - t) * x + t * y

/-- The logical input actions.  The source keeps a string-keyed boolean map
and reads `keys['ArrowUp'] || keys['KeyW']` etc.; each field below is the
disjunction of the two physical keys bound to the action. -/
structure Keys where
  up : Bool
  down : Bool
  left : Bool
  right : Bool
deriving DecidableEq

/-- Combined per-variant game state: the fields of `gameRunningRef.current`
(`isStarted`, `isGameOver`, `score`, `speed`, `rotation`), the car's world
position (`carRef.current.position`), the React-state high score
(`gameState.highScore`) and the value persisted in local storage under the
fixed key `urban_drive_highscore` (`stored`). -/
structure GState where
  x : ℚ
  y : ℚ
  z : ℚ
  rotation : ℚ
  speed : ℚ
  score : ℚ
  highScore : ℚ
  stored : ℚ
  isStarted : Bool
  isGameOver : Bool
deriving DecidableEq

/-- Per-frame data consumed by `updateCar`: the input flags, the clamped
elapsed time `delta`, the oracle values for the three transcendental
computations (see the file header), and the optional terrain height
returned by the downward raycast (`none` when the ray hits nothing). -/
structure FrameInput where
  keys : Keys
  delta : ℚ
  fricPow : ℚ
  sinRot : ℚ
  cosRot : ℚ
  groundY : Option ℚ
deriving DecidableEq

/-- The acceleration / braking / friction block of `updateCar`
(Game.tsx lines 789–809): accumulate an acceleration from the pressed
keys; if it is nonzero integrate it over `delta`, otherwise multiply the
speed by the friction power and snap magnitudes below `0.005` to zero. -/
def applyAcceleration (keys : Keys) (delta fricPow speed : ℚ) : ℚ :=
  let a0 : ℚ := 0
  let a1 := if keys.up then a0 + CAR_ACCELERATION else a0
  let a2 :=
    if keys.down then
      if speed > 0.05 then a1 - CAR_BRAKE * 2 else a1 - CAR_ACCELERATION
    else a1
  if a2 ≠ 0 then
    speed + a2 * delta
  else
    let s := speed * fricPow
    if |s| < 0.005 then 0 else s

/-- The steering block of `updateCar` (Game.tsx lines 811–823): above the
minimum speed `0.01`, left/right add `±CAR_STEER_SPEED` to the heading,
signed by the direction of travel. -/
def applySteering (keys : Keys) (speed rotation : ℚ) : ℚ :=
  if |speed| > 0.01 then
    let steerDir : ℚ := if speed > 0 then 1 else -1
    let r1 := if keys.left then rotation + CAR_STEER_SPEED * steerDir else rotation
    let r2 := if keys.right then r1 - CAR_STEER_SPEED * steerDir else r1
    r2
  else rotation

/-- `updateCar(delta)` (Game.tsx lines 783–853), restricted to the fields it
feeds back into the simulation: speed (acceleration/friction then clamp to
`[-CAR_MAX_SPEED/2, CAR_MAX_SPEED]`), heading, the heading-projected
position integration, and the raycast terrain-following of `y`.  The
camera, body-tilt, zone, minimap and peer-send code reads these fields but
writes none of them, so it is not part of the embedded state. -/
def updateCar (inp : FrameInput) (st : GState) : GState :=
  let speed1 := applyAcceleration inp.keys inp.delta inp.fricPow st.speed
  let rotation1 := applySteering inp.keys speed1 st.rotation
  let speed2 := clamp speed1 (-(CAR_MAX_SPEED / 2)) CAR_MAX_SPEED
  { st with
    x := st.x + inp.sinRot * speed2
    z := st.z + inp.cosRot * speed2
    y := match inp.groundY with
         | some targetY => lerp st.y targetY 0.2
         | none => st.y
    rotation := rotation1
    speed := speed2 }

/-- One generated building record of `buildingsDataRef`:
`{ pos: (px, py, pz), scale: (sx, sy, sz), color, type }` with the color
determined by `hue` and `type`. -/
structure Building where
  px : ℚ
  py : ℚ
  pz : ℚ
  sx : ℚ
  sy : ℚ
  sz : ℚ
  hue : ℚ
  type : ℕ
deriving DecidableEq

/-- The AABB overlap test of `checkCollisions` (Game.tsx line 1003):
`dx < scale.x/2 + 1 && dz < scale.z/2 + 1` in the horizontal plane. -/
def collides (st : GState) (b : Building) : Bool :=
  |st.x - b.px| < b.sx / 2 + 1 && |st.z - b.pz| < b.sz / 2 + 1

/-- The exemption of `checkCollisions` (Game.tsx line 998): parking lots
(`type === 3`) and entities of height below one unit are ignored. -/
def skipEntity (b : Building) : Bool := b.type == 3 || b.sy < 1

/-- The bounce response of `checkCollisions` (Game.tsx lines 1004–1010):
`speed *= -0.5`, then push the position by `0.5` along the sign of each
horizontal separating axis. -/
def bounce (b : Building) (st : GState) : GState :=
  let speed := st.speed * (-0.5)
  let pushX : ℚ := if st.x - b.px > 0 then 1 else -1
  let pushZ : ℚ := if st.z - b.pz > 0 then 1 else -1
  { st with speed := speed, x := st.x + pushX * 0.5, z := st.z + pushZ * 0.5 }

/-- `checkCollisions()` of the driving variant (Game.tsx lines 992–1014):
scan the generated buildings in order, skip exempt entities, apply the
bounce to the first overlapping entity and `break`. -/
def checkCollisions : List Building → GState → GState
  | [], st => st
  | b :: rest, st =>
    if skipEntity b then checkCollisions rest st
    else if collides st b then bounce b st
    else checkCollisions rest st

/-- Specification-side reformulation (for the refinement claim about the
collision scan): the first non-exempt overlapping entity in generation
order, if any. -/
def firstCollision (bs : List Building) (st : GState) : Option Building :=
  bs.find? fun b => !skipEntity b && collides st b

/-- One animation-frame body while started and not game-over
(Game.tsx lines 272–275): `updateCar(delta)` then `checkCollisions()`. -/
def frameStep (world : List Building) (inp : FrameInput) (st : GState) : GState :=
  checkCollisions world (updateCar inp st)

/-- The sequence of end-of-frame states produced by running the animation
loop over a list of frame inputs. -/
def trajectory (world : List Building) : List FrameInput → GState → List GState
  | [], _ => []
  | inp :: rest, st =>
    let st' := frameStep world inp st
    st' :: trajectory world rest st'

/-- `gameOver()` (Game.tsx lines 1016–1024, textually identical in
`src/unnamed/part_000` lines 419–427): stop the session and persist
`Math.max(score, highScore)` under the fixed storage key. -/
def gameOver (st : GState) : GState :=
  let newHighScore := max st.score st.highScore
  { st with
    isGameOver := true
    isStarted := false
    highScore := newHighScore
    stored := newHighScore }

/-- `startGame` (Game.tsx lines 1044–1059): reset the running state and
score, and place the car at the origin with identity rotation. -/
def startGame (st : GState) : GState :=
  { st with
    isStarted := true
    isGameOver := false
    score := 0
    speed := 0
    rotation := 0
    x := 0
    y := 0
    z := 0 }

/-- A generated tree record of `treesDataRef`: `{ pos: (x, 0, z), scale }`. -/
structure TreeItem where
  x : ℚ
  z : ℚ
  scale : ℚ
deriving DecidableEq

/-- A bench record of `propsDataRef`: `{ pos: (x, 0.4, z), rotation }`,
the rotation stored as a multiple of π (`rotation = Math.random() * Math.PI`). -/
structure BenchProp where
  x : ℚ
  y : ℚ
  z : ℚ
  rotPi : ℚ
deriving DecidableEq

/-- A barrier record of `barriersDataRef`, rotation as a multiple of π. -/
structure BarrierItem where
  x : ℚ
  y : ℚ
  z : ℚ
  rotPi : ℚ
deriving DecidableEq

/-- A window record of `windowsDataRef`: `{ pos, scale }`. -/
structure WindowPane where
  px : ℚ
  py : ℚ
  pz : ℚ
  sx : ℚ
  sy : ℚ
  sz : ℚ
deriving DecidableEq

/-- A cloud record of `cloudsDataRef`: `{ pos, scale }`. -/
structure CloudItem where
  px : ℚ
  py : ℚ
  pz : ℚ
  sx : ℚ
  sy : ℚ
  sz : ℚ
deriving DecidableEq

/-- A traffic-light record of `trafficLightsDataRef`, rotation as a
multiple of π. -/
structure TrafficLightItem where
  x : ℚ
  y : ℚ
  z : ℚ
  rotPi : ℚ
deriving DecidableEq

/-- The process-local entity collections populated by `generateCityData`. -/
structure WorldState where
  buildings : List Building
  trees : List TreeItem
  props : List BenchProp
  barriers : List BarrierItem
  windows : List WindowPane
  clouds : List CloudItem
  trafficLights : List TrafficLightItem
deriving DecidableEq

/-- The empty collections present before the first generation. -/
def initialWorld : WorldState := ⟨[], [], [], [], [], [], []⟩

/-- A pseudo-random source: an explicit stream of draws (each standing for
one `Math.random()` call, so a faithful run supplies values in `[0, 1)`)
together with the index of the next draw. -/
structure Gen where
  rand : ℕ → ℚ
  k : ℕ

/-- Consume one `Math.random()` draw. -/
def Gen.next (g : Gen) : ℚ × Gen := (g.rand g.k, { g with k := g.k + 1 })

/-- The road-avoidance displacement used by the generator: when a
coordinate is within `threshold` of the nearest road centerline (the
periodic grid with spacing 200), shift it by `shift` away from that
centerline.  `addBuilding` instantiates it with `(30, 60)` and the tree
loop with `(15, 12)`. -/
def displaceFromRoad (threshold shift q : ℚ) : ℚ :=
  if |q - 200 * jsRound (q / 200)| < threshold then
    q + shift * (if q > 200 * jsRound (q / 200) then 1 else -1)
  else q

/-- One row of the window loop in `addBuilding` (Game.tsx lines 614–624):
two panes at height `2 + r*4`, on the `±z` faces. -/
def windowRow (x z w d : ℚ) (st : WorldState) (r : ℕ) : WorldState :=
  let wy : ℚ := 2 + (r : ℚ) * 4
  { st with windows := st.windows ++
      [⟨x, wy, z + d / 2 + 0.1, w * 0.7, 1.5, 0.1⟩,
       ⟨x, wy, z - d / 2 - 0.1, w * 0.7, 1.5, 0.1⟩] }

/-- The building record appended by `addBuilding` after the road
displacement of its candidate coordinates. -/
def placedBuilding (x z w h d hue : ℚ) (ty : ℕ) : Building :=
  ⟨displaceFromRoad 30 60 x, h / 2, displaceFromRoad 30 60 z, w, h, d, hue, ty⟩

/-- `addBuilding(x, z, w, h, d, hue, type)` (Game.tsx lines 591–626):
displace the candidate coordinates away from the road grid, append the
building record, and for buildings taller than 20 append
`Math.floor(h/4)` window rows placed from the displaced coordinates.
(The source also computes an unused `cols = Math.floor(w/4)`.) -/
def addBuilding (x z w h d hue : ℚ) (ty : ℕ) (st : WorldState) : WorldState :=
  if h > 20 then
    (List.range (⌊h / 4⌋).toNat).foldl
      (windowRow (displaceFromRoad 30 60 x) (displaceFromRoad 30 60 z) w d)
      { st with buildings := st.buildings ++ [placedBuilding x z w h d hue ty] }
  else { st with buildings := st.buildings ++ [placedBuilding x z w h d hue ty] }

/-- Downtown loop body (Game.tsx lines 485–492): draws h, w, d, x, z and
the hue, then `addBuilding(..., type 0)`. -/
def downtownStep (sg : WorldState × Gen) (_i : ℕ) : WorldState × Gen :=
  let (st, g) := sg
  let (rh, g) := g.next
  let h := 80 + rh * 150
  let (rw, g) := g.next
  let w := 25 + rw * 15
  let (rd, g) := g.next
  let d := 25 + rd * 15
  let (rx, g) := g.next
  let x := (rx - 0.5) * 500
  let (rz, g) := g.next
  let z := (rz - 0.5) * 500
  let (rc, g) := g.next
  (addBuilding x z w h d (0.5 + rc * 0.1) 0 st, g)

/-- Government-offices loop body (Game.tsx lines 495–499). -/
def governmentStep (sg : WorldState × Gen) (_i : ℕ) : WorldState × Gen :=
  let (st, g) := sg
  let (rx, g) := g.next
  let x := (rx - 0.5) * 400
  let (rz, g) := g.next
  let z := (rz - 0.5) * 400
  (addBuilding x z 60 40 60 0 7 st, g)

/-- Residential loop body (Game.tsx lines 502–509). -/
def residentialStep (sg : WorldState × Gen) (_i : ℕ) : WorldState × Gen :=
  let (st, g) := sg
  let (rh, g) := g.next
  let h := 8 + rh * 12
  let (rw, g) := g.next
  let w := 12 + rw * 8
  let (rd, g) := g.next
  let d := 12 + rd * 8
  let (rx, g) := g.next
  let x := 600 + (rx - 0.5) * 1000
  let (rz, g) := g.next
  let z := 600 + (rz - 0.5) * 1000
  let (rc, g) := g.next
  (addBuilding x z w h d (0.05 + rc * 0.05) 1 st, g)

/-- Commercial loop body (Game.tsx lines 512–519). -/
def commercialStep (sg : WorldState × Gen) (_i : ℕ) : WorldState × Gen :=
  let (st, g) := sg
  let (rh, g) := g.next
  let h := 10 + rh * 20
  let (rw, g) := g.next
  let w := 20 + rw * 30
  let (rd, g) := g.next
  let d := 20 + rd * 30
  let (rx, g) := g.next
  let x := -700 + (rx - 0.5) * 800
  let (rz, g) := g.next
  let z := 400 + (rz - 0.5) * 800
  let (rc, g) := g.next
  (addBuilding x z w h d (0.15 + rc * 0.1) 4 st, g)

/-- Healthcare loop body (Game.tsx lines 522–527). -/
def healthcareStep (sg : WorldState × Gen) (_i : ℕ) : WorldState × Gen :=
  let (st, g) := sg
  let (rx, g) := g.next
  let x := -800 + (rx - 0.5) * 600
  let (rz, g) := g.next
  let z := -800 + (rz - 0.5) * 600
  let (rc, g) := g.next
  let isClinic := rc > 0.7
  (addBuilding x z (if isClinic then 40 else 100) (if isClinic then 15 else 40)
    (if isClinic then 40 else 80) 0 5 st, g)

/-- Education loop body (Game.tsx lines 530–535). -/
def educationStep (sg : WorldState × Gen) (_i : ℕ) : WorldState × Gen :=
  let (st, g) := sg
  let (rx, g) := g.next
  let x := 800 + (rx - 0.5) * 600
  let (rz, g) := g.next
  let z := -800 + (rz - 0.5) * 600
  let (rc, g) := g.next
  let isSchool := rc > 0.5
  (addBuilding x z (if isSchool then 60 else 120) (if isSchool then 15 else 30)
    (if isSchool then 60 else 120) 0.6 6 st, g)

/-- One barrier of the parking-lot inner loop (Game.tsx lines 543–548);
`x` and `z` are the lot's pre-displacement coordinates. -/
def parkingBarrier (x z : ℚ) (st : WorldState) (j : ℕ) : WorldState :=
  { st with barriers := st.barriers ++
      [⟨x + (if j % 2 = 1 then 40 else -40), 1,
        z + (if j < 2 then 50 else -50),
        if j < 2 then 0 else 1 / 2⟩] }

/-- Parking-lot loop body (Game.tsx lines 538–549): a flat type-3 lot plus
four barriers placed from the un-displaced candidate coordinates. -/
def parkingStep (sg : WorldState × Gen) (_i : ℕ) : WorldState × Gen :=
  let (st, g) := sg
  let (rx, g) := g.next
  let x := (rx - 0.5) * 2500
  let (rz, g) := g.next
  let z := (rz - 0.5) * 2500
  let st := addBuilding x z 80 0.5 100 0 3 st
  ((List.range 4).foldl (parkingBarrier x z) st, g)

/-- Tree loop body (Game.tsx lines 552–569): only candidates falling near a
road centerline are kept; each kept candidate is displaced `(15, 12)` per
near axis, then a tree (and, with probability, a bench prop) is appended. -/
def treesStep (sg : WorldState × Gen) (_i : ℕ) : WorldState × Gen :=
  let (st, g) := sg
  let (rx, g) := g.next
  let x := (rx - 0.5) * 3000
  let (rz, g) := g.next
  let z := (rz - 0.5) * 3000
  let gridX : ℚ := 200 * jsRound (x / 200)
  let gridZ : ℚ := 200 * jsRound (z / 200)
  if |z - gridZ| < 15 ∨ |x - gridX| < 15 then
    let z := displaceFromRoad 15 12 z
    let x := displaceFromRoad 15 12 x
    let (rs, g) := g.next
    let st := { st with trees := st.trees ++ [⟨x, z, 0.5 + rs * 1⟩] }
    let (rb, g) := g.next
    if rb > 0.7 then
      let (rr, g) := g.next
      ({ st with props := st.props ++ [⟨x + 3, 0.4, z, rr⟩] }, g)
    else (st, g)
  else (st, g)

/-- Cloud loop body (Game.tsx lines 573–578). -/
def cloudsStep (sg : WorldState × Gen) (_i : ℕ) : WorldState × Gen :=
  let (st, g) := sg
  let (r1, g) := g.next
  let px := (r1 - 0.5) * 3000
  let (r2, g) := g.next
  let py := 200 + r2 * 100
  let (r3, g) := g.next
  let pz := (r3 - 0.5) * 3000
  let (r4, g) := g.next
  let sx := 100 + r4 * 200
  let (r5, g) := g.next
  let sy := 20 + r5 * 40
  let (r6, g) := g.next
  let sz := 100 + r6 * 200
  ({ st with clouds := st.clouds ++ [⟨px, py, pz, sx, sy, sz⟩] }, g)

/-- Traffic-light inner loop body (Game.tsx lines 581–588): two poles per
intersection `(i, j)` with `i, j ∈ [-5, 5]` (indices shifted by 5 here). -/
def trafficLightStep (i : ℕ) (sg : WorldState × Gen) (j : ℕ) : WorldState × Gen :=
  let (st, g) := sg
  let tx : ℚ := ((i : ℤ) - 5) * 200
  let tz : ℚ := ((j : ℤ) - 5) * 200
  ({ st with trafficLights := st.trafficLights ++
      [⟨tx + 12, 0, tz + 12, 0⟩, ⟨tx - 12, 0, tz - 12, 1⟩] }, g)

/-- Downtown section: 80 iterations. -/
def sectionDowntown (sg : WorldState × Gen) : WorldState × Gen :=
  (List.range 80).foldl downtownStep sg

/-- Government section: 15 iterations. -/
def sectionGovernment (sg : WorldState × Gen) : WorldState × Gen :=
  (List.range 15).foldl governmentStep sg

/-- Residential section: 300 iterations. -/
def sectionResidential (sg : WorldState × Gen) : WorldState × Gen :=
  (List.range 300).foldl residentialStep sg

/-- Commercial section: 100 iterations. -/
def sectionCommercial (sg : WorldState × Gen) : WorldState × Gen :=
  (List.range 100).foldl commercialStep sg

/-- Healthcare section: 10 iterations. -/
def sectionHealthcare (sg : WorldState × Gen) : WorldState × Gen :=
  (List.range 10).foldl healthcareStep sg

/-- Education section: 15 iterations. -/
def sectionEducation (sg : WorldState × Gen) : WorldState × Gen :=
  (List.range 15).foldl educationStep sg

/-- Parking section: 20 iterations. -/
def sectionParking (sg : WorldState × Gen) : WorldState × Gen :=
  (List.range 20).foldl parkingStep sg

/-- Tree section: 800 iterations. -/
def sectionTrees (sg : WorldState × Gen) : WorldState × Gen :=
  (List.range 800).foldl treesStep sg

/-- Cloud section: 50 iterations. -/
def sectionClouds (sg : WorldState × Gen) : WorldState × Gen :=
  (List.range 50).foldl cloudsStep sg

/-- Traffic-light section: the nested 11×11 loop. -/
def sectionTrafficLights (sg : WorldState × Gen) : WorldState × Gen :=
  (List.range 11).foldl (fun sg i => (List.range 11).foldl (trafficLightStep i) sg) sg

/-- The generation sections of `generateCityData()` in source order,
threading the pseudo-random stream. -/
def cityPipeline (sg : WorldState × Gen) : WorldState × Gen :=
  sectionTrafficLights (sectionClouds (sectionTrees (sectionParking
    (sectionEducation (sectionHealthcare (sectionCommercial
      (sectionResidential (sectionGovernment (sectionDowntown sg)))))))))

/-- `generateCityData()` (Game.tsx lines 481–589): guarded by the
already-populated check `buildingsDataRef.current.length > 0`, then the
generation sections run in source order. -/
def generateCityData (rand : ℕ → ℚ) (st : WorldState) : WorldState :=
  if st.buildings.length > 0 then st
  else (cityPipeline (st, ⟨rand, 0⟩)).1

/-- An axis-aligned rectangle in the horizontal plane: center and
half-extents. -/
structure Rect where
  cx : ℚ
  cz : ℚ
  hx : ℚ
  hz : ℚ
deriving DecidableEq

/-- The road surfaces of the main grid laid down by `createRoads`
(Game.tsx lines 345–389): for each `i ∈ [-10, 10]` a vertical road of
plane geometry `(20, 4000)` centered at `(200·i, 0)`, and a horizontal
road of geometry `(4000, 20)` centered at `(0, 200·i)` — except `i = 0`,
where the horizontal road is split into three segments around the river:
`(1400, 20)` at `(-700, 0)`, `(2400, 20)` at `(2800, 0)` and the bridge
segment `(200, 20)` at `(1500, 0)`.  (The rotated mountain road and ramp
are not part of the periodic grid.) -/
def gridRoads : List Rect :=
  (List.range 21).flatMap fun k =>
    let i : ℤ := (k : ℤ) - 10
    let horiz : List Rect :=
      if i = 0 then
        [⟨-700, 0, 700, 10⟩, ⟨2800, 0, 1200, 10⟩, ⟨1500, 0, 100, 10⟩]
      else [⟨0, ((200 * i : ℤ) : ℚ), 2000, 10⟩]
    horiz ++ [⟨((200 * i : ℤ) : ℚ), 0, 10, 2000⟩]

/-- Open overlap of two axis-aligned rectangles. -/
def rectOverlap (a b : Rect) : Bool :=
  |a.cx - b.cx| < a.hx + b.hx && |a.cz - b.cz| < a.hz + b.hz

/-- A building's horizontal footprint. -/
def footprint (b : Building) : Rect := ⟨b.px, b.pz, b.sx / 2, b.sz / 2⟩

/-- Whether a building's footprint overlaps some road cell of the grid. -/
def overlapsRoad (b : Building) : Bool :=
  gridRoads.any fun r => rectOverlap (footprint b) r

/-- Distance of a coordinate from the nearest road centerline of the
periodic grid (spacing 200). -/
def roadDist (q : ℚ) : ℚ := |q - 200 * jsRound (q / 200)|

end UrbanDrive

namespace NightCity

/-- A building of the night-city variant (`src/unnamed/part_000`): a mesh
with a position and scale; only the horizontal components enter the
collision check. -/
structure Obstacle where
  px : ℚ
  pz : ℚ
  sx : ℚ
  sz : ℚ
deriving DecidableEq

/-- The AABB overlap test of the night-city `checkCollisions`
(part_000 lines 409–412). -/
def collides (st : UrbanDrive.GState) (b : Obstacle) : Bool :=
  |st.x - b.px| < b.sx / 2 + 1 && |st.z - b.pz| < b.sz / 2 + 1

/-- `checkCollisions()` of the night-city variant (part_000 lines 401–417):
any overlap with a building triggers `gameOver()` (which is textually the
same function as the driving variant's, embedded once as
`UrbanDrive.gameOver`). -/
def checkCollisions : List Obstacle → UrbanDrive.GState → UrbanDrive.GState
  | [], st => st
  | b :: rest, st =>
    if collides st b then UrbanDrive.gameOver st else checkCollisions rest st

/-- The first overlapping building in order, if any. -/
def firstHit (obs : List Obstacle) (st : UrbanDrive.GState) : Option Obstacle :=
  obs.find? (collides st)

end NightCity

/-! ### Concrete sample data used by witnesses and counterexamples -/

namespace UrbanDrive

/-- A frame with only the accelerate key held. -/
def driveInput : FrameInput := ⟨⟨true, false, false, false⟩, 1 / 10, 1 / 2, 0, 1, none⟩

/-- A coasting frame: no key held. -/
def coastInput : FrameInput := ⟨⟨false, false, false, false⟩, 1 / 60, 1 / 2, 0, 1, none⟩

/-- An idle frame with an arbitrary terrain hit. -/
def idleInput : FrameInput := ⟨⟨false, false, false, false⟩, 1 / 30, 1 / 2, 1 / 2, 1 / 2, some 3⟩

/-- A running state moving at speed 1 at `(2, 3)`. -/
def movingState : GState := ⟨2, 0, 3, 0, 1, 0, 0, 0, true, false⟩

/-- A running state at rest at `(5, 7)` with heading 2. -/
def restingState : GState := ⟨5, 0, 7, 2, 0, 0, 0, 0, true, false⟩

/-- A 10×10×10 building at the origin (collidable: type 0, height ≥ 1). -/
def originBuilding : Building := ⟨0, 5, 0, 10, 10, 10, 0, 0⟩

/-- The night-city analogue of `originBuilding`. -/
def originObstacle : NightCity.Obstacle := ⟨0, 0, 10, 10⟩

/-- A finished session whose score 10 beats the stored high score 5. -/
def beatingState : GState := ⟨0, 0, 0, 0, 0, 10, 5, 5, false, true⟩

/-- A finished session whose score 3 does not beat the stored high score 5. -/
def losingState : GState := ⟨0, 0, 0, 0, 0, 3, 5, 5, false, true⟩

/-- A constant pseudo-random stream (every `Math.random()` call returns
`9/40 = 0.225`), used to exhibit a concrete generated world. -/
def constRand : ℕ → ℚ := fun _ => 9 / 40

/-- The education-campus building generated by every iteration of the
education loop under `constRand`: candidate `(800 - 0.275·600,
-800 - 0.275·600) = (635, -965)`, both coordinates 35 away from the
nearest road centerline so `addBuilding` leaves them in place, with the
university footprint 120×120 and height 30. -/
def eduCexBuilding : Building := ⟨635, 15, -965, 120, 30, 120, 0.6, 6⟩

/-- A pre-generation world already holding one road-respecting building
and one road-respecting tree, used to witness the margin-preservation
theorem. -/
def seededWorld : WorldState :=
  ⟨[⟨100, 5, 100, 10, 10, 10, 0, 0⟩], [⟨100, 100, 1⟩], [], [], [], [], []⟩

/-- A generation loop body is tame when it leaves the pseudo-random
stream itself unchanged and only appends entities, every appended
building center at least 30 — and every appended tree center at least
12 — away from the nearest road centerline on each axis. -/
def TameStep (f : WorldState × Gen → ℕ → WorldState × Gen) : Prop :=
  ∀ (st : WorldState) (g : Gen) (a : ℕ),
    (f (st, g) a).2.rand = g.rand ∧
    ∃ bs ts,
      (f (st, g) a).1.buildings = st.buildings ++ bs ∧
      (f (st, g) a).1.trees = st.trees ++ ts ∧
      (∀ b ∈ bs, 30 ≤ roadDist b.px ∧ 30 ≤ roadDist b.pz) ∧
      (∀ t ∈ ts, 12 ≤ roadDist t.x ∧ 12 ≤ roadDist t.z)

/-- The same tameness property for a whole generation pass. -/
def TamePass (F : WorldState × Gen → WorldState × Gen) : Prop :=
  ∀ (st : WorldState) (g : Gen),
    (F (st, g)).2.rand = g.rand ∧
    ∃ bs ts,
      (F (st, g)).1.buildings = st.buildings ++ bs ∧
      (F (st, g)).1.trees = st.trees ++ ts ∧
      (∀ b ∈ bs, 30 ≤ roadDist b.px ∧ 30 ≤ roadDist b.pz) ∧
      (∀ t ∈ ts, 12 ≤ roadDist t.x ∧ 12 ≤ roadDist t.z)

end UrbanDrive

/-! ## Helper lemmas -/

namespace UrbanDrive

theorem le_clamp (v lo hi : ℚ) : lo ≤ clamp v lo hi :=
  le_max_left _ _

theorem clamp_le (v : ℚ) {lo hi : ℚ} (h : lo ≤ hi) : clamp v lo hi ≤ hi :=
  max_le h (min_le_left _ _)

theorem abs_clamp_le (v : ℚ) {lo hi : ℚ} (h1 : lo ≤ 0) (h2 : 0 ≤ hi) :
    |clamp v lo hi| ≤ |v| := by
  unfold clamp
  rcases le_or_lt 0 v with hv | hv
  · have hmin : 0 ≤ min hi v := le_min h2 hv
    rw [max_eq_right (h1.trans hmin), abs_of_nonneg hmin, abs_of_nonneg hv]
    exact min_le_right _ _
  · have hmin : min hi v = v := min_eq_right (hv.le.trans h2)
    rw [hmin]
    have hmax : max lo v ≤ 0 := max_le h1 hv.le
    rw [abs_of_nonpos hmax, abs_of_neg hv]
    exact neg_le_neg (le_max_right _ _)

theorem updateCar_speed (inp : FrameInput) (st : GState) :
    (updateCar inp st).speed =
      clamp (applyAcceleration inp.keys inp.delta inp.fricPow st.speed)
        (-(CAR_MAX_SPEED / 2)) CAR_MAX_SPEED := rfl

theorem updateCar_rotation (inp : FrameInput) (st : GState) :
    (updateCar inp st).rotation =
      applySteering inp.keys
        (applyAcceleration inp.keys inp.delta inp.fricPow st.speed) st.rotation := rfl

theorem updateCar_x (inp : FrameInput) (st : GState) :
    (updateCar inp st).x = st.x + inp.sinRot * (updateCar inp st).speed := rfl

theorem updateCar_z (inp : FrameInput) (st : GState) :
    (updateCar inp st).z = st.z + inp.cosRot * (updateCar inp st).speed := rfl

theorem applyAcceleration_no_input (delta fricPow speed : ℚ)
    {keys : Keys} (hup : keys.up = false) (hdown : keys.down = false) :
    applyAcceleration keys delta fricPow speed =
      if |speed * fricPow| < 0.005 then 0 else speed * fricPow := by
  simp [applyAcceleration, hup, hdown]

theorem checkCollisions_eq_find (bs : List Building) (st : GState) :
    checkCollisions bs st =
      match firstCollision bs st with
      | some b => bounce b st
      | none => st := by
  induction bs with
  | nil => rfl
  | cons b rest ih =>
    by_cases hskip : skipEntity b = true
    · simpa [checkCollisions, firstCollision, List.find?, hskip] using ih
    · rw [Bool.not_eq_true] at hskip
      by_cases hcol : collides st b = true
      · simp [checkCollisions, firstCollision, List.find?, hskip, hcol]
      · rw [Bool.not_eq_true] at hcol
        simpa [checkCollisions, firstCollision, List.find?, hskip, hcol] using ih

theorem checkCollisions_speed (bs : List Building) (st : GState) :
    (checkCollisions bs st).speed = st.speed ∨
      (checkCollisions bs st).speed = st.speed * (-0.5) := by
  rw [checkCollisions_eq_find]
  cases firstCollision bs st with
  | none => exact Or.inl rfl
  | some b => exact Or.inr rfl

theorem checkCollisions_flags (bs : List Building) (st : GState) :
    (checkCollisions bs st).isGameOver = st.isGameOver ∧
      (checkCollisions bs st).isStarted = st.isStarted := by
  rw [checkCollisions_eq_find]
  cases firstCollision bs st with
  | none => exact ⟨rfl, rfl⟩
  | some b => exact ⟨rfl, rfl⟩

/-- Pushing half a unit along the sign of `u` strictly increases the
distance from zero. -/
theorem abs_push_gt (u : ℚ) : |u + (if u > 0 then (1 : ℚ) else -1) * 0.5| > |u| := by
  by_cases h : u > 0
  · rw [if_pos h, abs_of_pos h, abs_of_pos (by linarith)]
    norm_num
  · push_neg at h
    rw [if_neg (not_lt.mpr h), abs_of_nonpos h,
      abs_of_neg (by norm_num; linarith : u + (-1 : ℚ) * 0.5 < 0)]
    norm_num

/-- Range bound for the speed stored by `updateCar`, unconditional in the
incoming state and inputs. -/
theorem updateCar_speed_mem (inp : FrameInput) (st : GState) :
    -(CAR_MAX_SPEED / 2) ≤ (updateCar inp st).speed ∧
      (updateCar inp st).speed ≤ CAR_MAX_SPEED := by
  rw [updateCar_speed]
  exact ⟨le_clamp _ _ _, clamp_le _ (by norm_num [CAR_MAX_SPEED])⟩

/-- The bounce keeps the stored speed inside the clamp range. -/
theorem bounce_speed_mem {s : ℚ}
    (h1 : -(CAR_MAX_SPEED / 2) ≤ s) (h2 : s ≤ CAR_MAX_SPEED) :
    -(CAR_MAX_SPEED / 2) ≤ s * (-0.5) ∧ s * (-0.5) ≤ CAR_MAX_SPEED := by
  norm_num [CAR_MAX_SPEED] at *
  constructor <;> nlinarith

end UrbanDrive

namespace NightCity

theorem night_checkCollisions_eq_find (obs : List Obstacle) (st : UrbanDrive.GState) :
    checkCollisions obs st =
      match firstHit obs st with
      | some _ => UrbanDrive.gameOver st
      | none => st := by
  induction obs with
  | nil => rfl
  | cons b rest ih =>
    by_cases hcol : collides st b = true
    · simp [checkCollisions, firstHit, List.find?, hcol]
    · rw [Bool.not_eq_true] at hcol
      simpa [checkCollisions, firstHit, List.find?, hcol] using ih

end NightCity

/-! ## Claim theorems: the per-frame simulator -/

namespace UrbanDrive

/-- Over the reals, the frame-rate-normalized friction factor
`Math.pow(CAR_FRICTION, delta * 60)` lies strictly between 0 and 1 for
every positive elapsed time; this justifies the `fricPow` hypotheses of
the friction theorems below. -/
theorem frictionFactor_pos_lt_one (δ : ℝ) (h : 0 < δ) :
    0 < (0.992 : ℝ) ^ (δ * 60) ∧ (0.992 : ℝ) ^ (δ * 60) < 1 :=
  ⟨Real.rpow_pos_of_pos (by norm_num) _,
   Real.rpow_lt_one (by norm_num) (by norm_num) (by positivity)⟩

/-- C1: along every trajectory of frame updates, for every combination of
input flags, the stored speed lies in `[-CAR_MAX_SPEED/2, CAR_MAX_SPEED]`
after every frame (end-of-frame states include the same-frame bounce of
`checkCollisions`), and already after `updateCar` stores its result. -/
theorem speed_always_in_clamp_range
    (world : List Building) (inputs : List FrameInput) (st0 : GState) :
    (∀ st ∈ trajectory world inputs st0,
      -(CAR_MAX_SPEED / 2) ≤ st.speed ∧ st.speed ≤ CAR_MAX_SPEED) ∧
    ∀ (inp : FrameInput) (st : GState),
      -(CAR_MAX_SPEED / 2) ≤ (updateCar inp st).speed ∧
        (updateCar inp st).speed ≤ CAR_MAX_SPEED := by
  refine ⟨?_, fun inp st => updateCar_speed_mem inp st⟩
  induction inputs generalizing st0 with
  | nil => intro st h; simp [trajectory] at h
  | cons inp rest ih =>
    intro st h
    simp only [trajectory] at h
    rcases List.mem_cons.mp h with rfl | h2
    · have hu := updateCar_speed_mem inp st0
      rcases checkCollisions_speed world (updateCar inp st0) with he | he
      · rw [frameStep, he]; exact hu
      · rw [frameStep, he]; exact bounce_speed_mem hu.1 hu.2
    · exact ih _ _ h2

/-- Witness for the speed-range invariant at a concrete one-frame run. -/
theorem speed_always_in_clamp_range_witness :
    -(CAR_MAX_SPEED / 2) ≤ (frameStep [originBuilding] driveInput movingState).speed ∧
      (frameStep [originBuilding] driveInput movingState).speed ≤ CAR_MAX_SPEED := by
  have h := speed_always_in_clamp_range [originBuilding] [driveInput] movingState
  exact h.1 _ (by simp [trajectory])

/-- C2: on a frame with neither accelerate nor brake pressed and nonzero
current speed, the stored speed strictly decreases in magnitude (it is the
current speed multiplied by the friction power), and if the multiplied
magnitude falls below the snap threshold `0.005` the stored speed is
exactly zero. -/
theorem friction_decay_strict_decrease
    (inp : FrameInput) (st : GState)
    (hup : inp.keys.up = false) (hdown : inp.keys.down = false)
    (hs : st.speed ≠ 0) (hf0 : 0 < inp.fricPow) (hf1 : inp.fricPow < 1) :
    |(updateCar inp st).speed| < |st.speed| ∧
      (|st.speed * inp.fricPow| < 0.005 → (updateCar inp st).speed = 0) := by
  have key : applyAcceleration inp.keys inp.delta inp.fricPow st.speed =
      if |st.speed * inp.fricPow| < 0.005 then 0 else st.speed * inp.fricPow :=
    applyAcceleration_no_input _ _ _ hup hdown
  have hspos : 0 < |st.speed| := abs_pos.mpr hs
  have habs : |st.speed * inp.fricPow| < |st.speed| := by
    rw [abs_mul, abs_of_pos hf0]
    nlinarith
  have hb1 : -(CAR_MAX_SPEED / 2) ≤ (0 : ℚ) := by norm_num [CAR_MAX_SPEED]
  have hb2 : (0 : ℚ) ≤ CAR_MAX_SPEED := by norm_num [CAR_MAX_SPEED]
  constructor
  · rw [updateCar_speed, key]
    by_cases hsnap : |st.speed * inp.fricPow| < 0.005
    · rw [if_pos hsnap]
      calc |clamp 0 (-(CAR_MAX_SPEED / 2)) CAR_MAX_SPEED| ≤ |(0 : ℚ)| :=
            abs_clamp_le _ hb1 hb2
        _ < |st.speed| := by simpa using hspos
    · rw [if_neg hsnap]
      exact lt_of_le_of_lt (abs_clamp_le _ hb1 hb2) habs
  · intro hsnap
    rw [updateCar_speed, key, if_pos hsnap]
    norm_num [clamp, min_def, max_def, CAR_MAX_SPEED]

/-- Witness for the friction decay theorem on a concrete coasting frame. -/
theorem friction_decay_strict_decrease_witness :
    |(updateCar coastInput movingState).speed| < |movingState.speed| ∧
      (|movingState.speed * coastInput.fricPow| < 0.005 →
        (updateCar coastInput movingState).speed = 0) :=
  friction_decay_strict_decrease coastInput movingState rfl rfl
    (by norm_num [movingState]) (by norm_num [coastInput]) (by norm_num [coastInput])

/-- C3: the collision pass is exactly "apply the bounce to the first
non-exempt entity (not a type-3 parking lot, height at least one unit)
whose axis-aligned footprint plus the 1-unit player margin overlaps the
player's position, in generation order; otherwise change nothing" — in
particular at most one entity receives the response per frame. -/
theorem collision_scan_first_only (bs : List Building) (st : GState) :
    checkCollisions bs st =
      match bs.find? (fun b => !skipEntity b && collides st b) with
      | some b => bounce b st
      | none => st :=
  checkCollisions_eq_find bs st

/-- C4: when a bounce is resolved, the stored speed is the incoming speed
multiplied by `-0.5`, and the player's distance from the struck entity's
center strictly increases along each horizontal axis. -/
theorem bounce_halves_inverts_and_pushes_out
    (bs : List Building) (st : GState) (b : Building)
    (h : firstCollision bs st = some b) :
    (checkCollisions bs st).speed = st.speed * (-0.5) ∧
      |(checkCollisions bs st).x - b.px| > |st.x - b.px| ∧
      |(checkCollisions bs st).z - b.pz| > |st.z - b.pz| := by
  have he := checkCollisions_eq_find bs st
  rw [h] at he
  rw [he]
  refine ⟨rfl, ?_, ?_⟩
  · have hx : (bounce b st).x - b.px =
        (st.x - b.px) + (if st.x - b.px > 0 then (1 : ℚ) else -1) * 0.5 := by
      show st.x + (if st.x - b.px > 0 then (1 : ℚ) else -1) * 0.5 - b.px = _
      ring
    rw [hx]
    exact abs_push_gt _
  · have hz : (bounce b st).z - b.pz =
        (st.z - b.pz) + (if st.z - b.pz > 0 then (1 : ℚ) else -1) * 0.5 := by
      show st.z + (if st.z - b.pz > 0 then (1 : ℚ) else -1) * 0.5 - b.pz = _
      ring
    rw [hz]
    exact abs_push_gt _

/-- Witness for the bounce theorem on a concrete overlap. -/
theorem bounce_halves_inverts_and_pushes_out_witness :
    (checkCollisions [originBuilding] movingState).speed = movingState.speed * (-0.5) ∧
      |(checkCollisions [originBuilding] movingState).x - originBuilding.px| >
        |movingState.x - originBuilding.px| ∧
      |(checkCollisions [originBuilding] movingState).z - originBuilding.pz| >
        |movingState.z - originBuilding.pz| :=
  bounce_halves_inverts_and_pushes_out [originBuilding] movingState originBuilding
    (by norm_num [firstCollision, List.find?, skipEntity, collides, originBuilding, movingState]; rfl)

/-- C6 counterexample: in the driving variant no collision ever reaches
the game-over state — the collision pass never changes the game-over flag,
so no reachable collision terminates the session. -/
theorem driving_collision_never_game_over :
    ¬ ∃ (bs : List Building) (st : GState),
        st.isGameOver = false ∧ (checkCollisions bs st).isGameOver = true := by
  rintro ⟨bs, st, h1, h2⟩
  rw [(checkCollisions_flags bs st).1, h1] at h2
  exact Bool.false_ne_true h2

/-- C6 amended: in the driving variant a collision only bounces (the
game-over flag is always preserved by the collision pass), while in the
night-city variant a collision with any building while running transitions
the session to the terminal idle state. -/
theorem collision_game_over_variants
    (obs : List NightCity.Obstacle) (st : GState) (b : NightCity.Obstacle)
    (_hrun : st.isStarted = true) (hfind : NightCity.firstHit obs st = some b) :
    (NightCity.checkCollisions obs st).isGameOver = true ∧
      (NightCity.checkCollisions obs st).isStarted = false ∧
      ∀ (bs : List Building) (st' : GState),
        (checkCollisions bs st').isGameOver = st'.isGameOver := by
  have he := NightCity.night_checkCollisions_eq_find obs st
  rw [hfind] at he
  rw [he]
  exact ⟨rfl, rfl, fun bs st' => (checkCollisions_flags bs st').1⟩

/-- Witness for the game-over transition on a concrete night-city overlap. -/
theorem collision_game_over_variants_witness :
    (NightCity.checkCollisions [originObstacle] movingState).isGameOver = true ∧
      (NightCity.checkCollisions [originObstacle] movingState).isStarted = false ∧
      ∀ (bs : List Building) (st' : GState),
        (checkCollisions bs st').isGameOver = st'.isGameOver :=
  collision_game_over_variants [originObstacle] movingState originObstacle rfl
    (by norm_num [NightCity.firstHit, List.find?, NightCity.collides, originObstacle, movingState])

/-- C7: assuming the in-memory high score mirrors the stored one (it is
read from storage at startup and both are written together), a game-over
with session score above the stored value persists exactly the session
score, and otherwise leaves the stored value unchanged. -/
theorem high_score_persistence (st : GState) (hsync : st.highScore = st.stored) :
    (st.stored < st.score → (gameOver st).stored = st.score) ∧
      (st.score ≤ st.stored → (gameOver st).stored = st.stored) := by
  have he : (gameOver st).stored = max st.score st.highScore := rfl
  rw [he, hsync]
  exact ⟨fun h => max_eq_left h.le, fun h => max_eq_right h⟩

/-- Witness for high-score persistence: a beating and a non-beating
session. -/
theorem high_score_persistence_witness :
    (gameOver beatingState).stored = beatingState.score ∧
      (gameOver losingState).stored = losingState.stored :=
  ⟨(high_score_persistence beatingState rfl).1 (by norm_num [beatingState]),
   (high_score_persistence losingState rfl).2 (by norm_num [losingState])⟩

/-- C8: starting a session from any prior state puts the car at the
origin with zero heading and zero speed, zero score, and enters the
running (non-game-over) state. -/
theorem startGame_resets (st : GState) :
    (startGame st).x = 0 ∧ (startGame st).y = 0 ∧ (startGame st).z = 0 ∧
      (startGame st).rotation = 0 ∧ (startGame st).speed = 0 ∧
      (startGame st).score = 0 ∧ (startGame st).isStarted = true ∧
      (startGame st).isGameOver = false :=
  ⟨rfl, rfl, rfl, rfl, rfl, rfl, rfl, rfl⟩

/-- C10: zero speed with no key pressed is a fixed point of the per-frame
vehicle update: speed, heading, and the horizontal position are exactly
unchanged, for every elapsed time and every oracle value. -/
theorem zero_speed_no_input_fixed_point
    (inp : FrameInput) (st : GState)
    (hk : inp.keys = ⟨false, false, false, false⟩) (hs : st.speed = 0) :
    (updateCar inp st).speed = 0 ∧ (updateCar inp st).rotation = st.rotation ∧
      (updateCar inp st).x = st.x ∧ (updateCar inp st).z = st.z := by
  have ha : applyAcceleration inp.keys inp.delta inp.fricPow st.speed = 0 := by
    rw [applyAcceleration_no_input _ _ _ (by rw [hk]) (by rw [hk]), hs]
    simp
  have hsp : (updateCar inp st).speed = 0 := by
    rw [updateCar_speed, ha]
    norm_num [clamp, min_def, max_def, CAR_MAX_SPEED]
  refine ⟨hsp, ?_, ?_, ?_⟩
  · rw [updateCar_rotation, ha, applySteering]
    norm_num
  · rw [updateCar_x, hsp]; ring
  · rw [updateCar_z, hsp]; ring

/-- Witness for the fixed-point theorem on a concrete resting state. -/
theorem zero_speed_no_input_fixed_point_witness :
    (updateCar idleInput restingState).speed = 0 ∧
      (updateCar idleInput restingState).rotation = restingState.rotation ∧
      (updateCar idleInput restingState).x = restingState.x ∧
      (updateCar idleInput restingState).z = restingState.z :=
  zero_speed_no_input_fixed_point idleInput restingState rfl rfl

end UrbanDrive

/-! ## Generation lemmas: road margins and tameness -/

namespace UrbanDrive

/-- The remainder of a coordinate against the nearest-centerline rounding
lies in `[-100, 100)` (half the grid spacing each way). -/
theorem jsRound_sub_bounds (q : ℚ) :
    -100 ≤ q - 200 * (jsRound (q / 200) : ℚ) ∧
      q - 200 * (jsRound (q / 200) : ℚ) < 100 := by
  have h1 : ((⌊q / 200 + 1 / 2⌋ : ℤ) : ℚ) ≤ q / 200 + 1 / 2 := Int.floor_le _
  have h2 : q / 200 + 1 / 2 < (⌊q / 200 + 1 / 2⌋ : ℤ) + 1 := Int.lt_floor_add_one _
  have hq : 200 * (q / 200) = q := by ring
  rw [jsRound]
  constructor <;> linarith [h1, h2, hq]

/-- Rounding is stable under remainders within half the spacing. -/
theorem jsRound_int_add (k : ℤ) (r : ℚ) (h1 : -100 ≤ r) (h2 : r < 100) :
    jsRound ((200 * (k : ℚ) + r) / 200) = k := by
  have he : (200 * (k : ℚ) + r) / 200 + 1 / 2 = (r / 200 + 1 / 2) + (k : ℚ) := by
    ring
  have hr : 200 * (r / 200) = r := by ring
  rw [jsRound, he, Int.floor_add_int]
  have h0 : ⌊r / 200 + 1 / 2⌋ = 0 := by
    rw [Int.floor_eq_zero_iff, Set.mem_Ico]
    constructor <;> linarith [hr]
  rw [h0, zero_add]

/-- Distance to the nearest centerline, written through a decomposition
into grid index and remainder. -/
theorem roadDist_int_add (k : ℤ) (r : ℚ) (h1 : -100 ≤ r) (h2 : r < 100) :
    roadDist (200 * (k : ℚ) + r) = |r| := by
  rw [roadDist, jsRound_int_add k r h1 h2]
  have he : 200 * (k : ℚ) + r - 200 * (k : ℚ) = r := by ring
  rw [he]

/-- The road displacement guarantees a margin of `min threshold shift`
between the resulting coordinate and the nearest road centerline,
provided the displacement cannot jump past the next centerline. -/
theorem roadDist_displaceFromRoad (t s q : ℚ)
    (_ht : 0 ≤ t) (hs : 0 ≤ s) (hts : s + t ≤ 100) :
    min t s ≤ roadDist (displaceFromRoad t s q) := by
  obtain ⟨h1, h2⟩ := jsRound_sub_bounds q
  unfold displaceFromRoad
  split_ifs with hin hpos
  · have hr := abs_lt.mp hin
    have hrpos : 0 < q - 200 * ((jsRound (q / 200) : ℤ) : ℚ) := by linarith
    have e1 : q + s * 1 = 200 * ((jsRound (q / 200) : ℤ) : ℚ) +
        ((q - 200 * ((jsRound (q / 200) : ℤ) : ℚ)) + s) := by ring
    rw [e1, roadDist_int_add _ _ (by linarith) (by linarith)]
    rw [abs_of_pos (by linarith)]
    have hmin := min_le_right t s
    linarith
  · have hr := abs_lt.mp hin
    have hrnp : q - 200 * ((jsRound (q / 200) : ℤ) : ℚ) ≤ 0 := by
      push_neg at hpos
      linarith
    have e2 : q + s * (-1) = 200 * ((jsRound (q / 200) : ℤ) : ℚ) +
        ((q - 200 * ((jsRound (q / 200) : ℤ) : ℚ)) - s) := by ring
    rw [e2, roadDist_int_add _ _ (by linarith) (by linarith)]
    rw [abs_of_nonpos (by linarith)]
    have hmin := min_le_right t s
    linarith
  · have e3 : q = 200 * ((jsRound (q / 200) : ℤ) : ℚ) +
        (q - 200 * ((jsRound (q / 200) : ℤ) : ℚ)) := by ring
    rw [e3, roadDist_int_add _ _ h1 h2]
    push_neg at hin
    have hmin := min_le_left t s
    linarith [hin]

/-- Building displacement keeps centers at least 30 from centerlines. -/
theorem displace_building_good (q : ℚ) : 30 ≤ roadDist (displaceFromRoad 30 60 q) := by
  have h := roadDist_displaceFromRoad 30 60 q (by norm_num) (by norm_num) (by norm_num)
  rwa [min_eq_left (by norm_num : (30 : ℚ) ≤ 60)] at h

/-- Tree displacement keeps centers at least 12 from centerlines. -/
theorem displace_tree_good (q : ℚ) : 12 ≤ roadDist (displaceFromRoad 15 12 q) := by
  have h := roadDist_displaceFromRoad 15 12 q (by norm_num) (by norm_num) (by norm_num)
  rwa [min_eq_right (by norm_num : (12 : ℚ) ≤ 15)] at h

theorem placedBuilding_good (x z w h d hue : ℚ) (ty : ℕ) :
    30 ≤ roadDist (placedBuilding x z w h d hue ty).px ∧
      30 ≤ roadDist (placedBuilding x z w h d hue ty).pz :=
  ⟨displace_building_good x, displace_building_good z⟩

theorem foldl_buildings_const (f : WorldState → ℕ → WorldState)
    (hf : ∀ st a, (f st a).buildings = st.buildings) :
    ∀ (l : List ℕ) (st : WorldState), (l.foldl f st).buildings = st.buildings := by
  intro l
  induction l with
  | nil => intro st; rfl
  | cons a l ih =>
    intro st
    rw [List.foldl_cons, ih, hf]

theorem foldl_trees_const (f : WorldState → ℕ → WorldState)
    (hf : ∀ st a, (f st a).trees = st.trees) :
    ∀ (l : List ℕ) (st : WorldState), (l.foldl f st).trees = st.trees := by
  intro l
  induction l with
  | nil => intro st; rfl
  | cons a l ih =>
    intro st
    rw [List.foldl_cons, ih, hf]

theorem addBuilding_buildings (x z w h d hue : ℚ) (ty : ℕ) (st : WorldState) :
    (addBuilding x z w h d hue ty st).buildings =
      st.buildings ++ [placedBuilding x z w h d hue ty] := by
  unfold addBuilding
  split_ifs
  · rw [foldl_buildings_const
      (windowRow (displaceFromRoad 30 60 x) (displaceFromRoad 30 60 z) w d)
      (fun st a => rfl)]
  · rfl

theorem addBuilding_trees (x z w h d hue : ℚ) (ty : ℕ) (st : WorldState) :
    (addBuilding x z w h d hue ty st).trees = st.trees := by
  unfold addBuilding
  split_ifs
  · rw [foldl_trees_const
      (windowRow (displaceFromRoad 30 60 x) (displaceFromRoad 30 60 z) w d)
      (fun st a => rfl)]
  · rfl

end UrbanDrive

namespace UrbanDrive

theorem downtownStep_tame : TameStep downtownStep := by
  intro st g a
  simp only [downtownStep, Gen.next]
  refine ⟨by trivial, _, [], addBuilding_buildings _ _ _ _ _ _ _ _,
    by rw [addBuilding_trees, List.append_nil], ?_, by simp⟩
  intro b hb
  rw [List.mem_singleton] at hb
  subst hb
  exact placedBuilding_good _ _ _ _ _ _ _

theorem governmentStep_tame : TameStep governmentStep := by
  intro st g a
  simp only [governmentStep, Gen.next]
  refine ⟨by trivial, _, [], addBuilding_buildings _ _ _ _ _ _ _ _,
    by rw [addBuilding_trees, List.append_nil], ?_, by simp⟩
  intro b hb
  rw [List.mem_singleton] at hb
  subst hb
  exact placedBuilding_good _ _ _ _ _ _ _

theorem residentialStep_tame : TameStep residentialStep := by
  intro st g a
  simp only [residentialStep, Gen.next]
  refine ⟨by trivial, _, [], addBuilding_buildings _ _ _ _ _ _ _ _,
    by rw [addBuilding_trees, List.append_nil], ?_, by simp⟩
  intro b hb
  rw [List.mem_singleton] at hb
  subst hb
  exact placedBuilding_good _ _ _ _ _ _ _

theorem commercialStep_tame : TameStep commercialStep := by
  intro st g a
  simp only [commercialStep, Gen.next]
  refine ⟨by trivial, _, [], addBuilding_buildings _ _ _ _ _ _ _ _,
    by rw [addBuilding_trees, List.append_nil], ?_, by simp⟩
  intro b hb
  rw [List.mem_singleton] at hb
  subst hb
  exact placedBuilding_good _ _ _ _ _ _ _

theorem healthcareStep_tame : TameStep healthcareStep := by
  intro st g a
  simp only [healthcareStep, Gen.next]
  refine ⟨by trivial, _, [], addBuilding_buildings _ _ _ _ _ _ _ _,
    by rw [addBuilding_trees, List.append_nil], ?_, by simp⟩
  intro b hb
  rw [List.mem_singleton] at hb
  subst hb
  exact placedBuilding_good _ _ _ _ _ _ _

theorem educationStep_tame : TameStep educationStep := by
  intro st g a
  simp only [educationStep, Gen.next]
  refine ⟨by trivial, _, [], addBuilding_buildings _ _ _ _ _ _ _ _,
    by rw [addBuilding_trees, List.append_nil], ?_, by simp⟩
  intro b hb
  rw [List.mem_singleton] at hb
  subst hb
  exact placedBuilding_good _ _ _ _ _ _ _

theorem parkingStep_tame : TameStep parkingStep := by
  intro st g a
  simp only [parkingStep, Gen.next]
  rw [foldl_buildings_const (parkingBarrier ((g.rand g.k - 0.5) * 2500)
        ((g.rand (g.k + 1) - 0.5) * 2500)) (fun st a => rfl),
      foldl_trees_const (parkingBarrier ((g.rand g.k - 0.5) * 2500)
        ((g.rand (g.k + 1) - 0.5) * 2500)) (fun st a => rfl)]
  refine ⟨by trivial, _, [], addBuilding_buildings _ _ _ _ _ _ _ _,
    by rw [addBuilding_trees, List.append_nil], ?_, by simp⟩
  intro b hb
  rw [List.mem_singleton] at hb
  subst hb
  exact placedBuilding_good _ _ _ _ _ _ _

theorem treesStep_tame : TameStep treesStep := by
  intro st g a
  simp only [treesStep, Gen.next]
  split_ifs with hnear hbench
  · refine ⟨by trivial, [], _, (List.append_nil _).symm, rfl, by simp, ?_⟩
    intro t ht
    rw [List.mem_singleton] at ht
    subst ht
    exact ⟨displace_tree_good _, displace_tree_good _⟩
  · refine ⟨by trivial, [], _, (List.append_nil _).symm, rfl, by simp, ?_⟩
    intro t ht
    rw [List.mem_singleton] at ht
    subst ht
    exact ⟨displace_tree_good _, displace_tree_good _⟩
  · exact ⟨by trivial, [], [], (List.append_nil _).symm, (List.append_nil _).symm,
      by simp, by simp⟩

theorem cloudsStep_tame : TameStep cloudsStep := by
  intro st g a
  simp only [cloudsStep, Gen.next]
  exact ⟨by trivial, [], [], (List.append_nil _).symm, (List.append_nil _).symm,
    by simp, by simp⟩

theorem trafficLightStep_tame (i : ℕ) : TameStep (trafficLightStep i) := by
  intro st g a
  simp only [trafficLightStep]
  exact ⟨by trivial, [], [], (List.append_nil _).symm, (List.append_nil _).symm,
    by simp, by simp⟩

theorem foldl_tame {f : WorldState × Gen → ℕ → WorldState × Gen}
    (hf : TameStep f) (l : List ℕ) :
    TamePass (fun sg => l.foldl f sg) := by
  induction l with
  | nil =>
    intro st g
    exact ⟨by trivial, [], [], (List.append_nil _).symm, (List.append_nil _).symm,
      by simp, by simp⟩
  | cons a l ih =>
    intro st g
    obtain ⟨hr1, bs1, ts1, hb1, ht1, hgb1, hgt1⟩ := hf st g a
    simp only [List.foldl_cons]
    rcases hfa : f (st, g) a with ⟨st1, g1⟩
    rw [hfa] at hr1 hb1 ht1
    obtain ⟨hr2, bs2, ts2, hb2, ht2, hgb2, hgt2⟩ := ih st1 g1
    refine ⟨?_, bs1 ++ bs2, ts1 ++ ts2, ?_, ?_, ?_, ?_⟩
    · rw [hr2, hr1]
    · rw [hb2, hb1, List.append_assoc]
    · rw [ht2, ht1, List.append_assoc]
    · intro b hb
      rcases List.mem_append.mp hb with hmem | hmem
      · exact hgb1 b hmem
      · exact hgb2 b hmem
    · intro t htm
      rcases List.mem_append.mp htm with hmem | hmem
      · exact hgt1 t hmem
      · exact hgt2 t hmem

theorem tamePass_comp {F G : WorldState × Gen → WorldState × Gen}
    (hF : TamePass F) (hG : TamePass G) : TamePass (fun sg => G (F sg)) := by
  intro st g
  obtain ⟨hr1, bs1, ts1, hb1, ht1, hgb1, hgt1⟩ := hF st g
  simp only []
  rcases hFa : F (st, g) with ⟨st1, g1⟩
  rw [hFa] at hr1 hb1 ht1
  obtain ⟨hr2, bs2, ts2, hb2, ht2, hgb2, hgt2⟩ := hG st1 g1
  refine ⟨?_, bs1 ++ bs2, ts1 ++ ts2, ?_, ?_, ?_, ?_⟩
  · rw [hr2, hr1]
  · rw [hb2, hb1, List.append_assoc]
  · rw [ht2, ht1, List.append_assoc]
  · intro b hb
    rcases List.mem_append.mp hb with hmem | hmem
    · exact hgb1 b hmem
    · exact hgb2 b hmem
  · intro t htm
    rcases List.mem_append.mp htm with hmem | hmem
    · exact hgt1 t hmem
    · exact hgt2 t hmem

theorem sectionDowntown_tame : TamePass sectionDowntown :=
  foldl_tame downtownStep_tame (List.range 80)

theorem sectionGovernment_tame : TamePass sectionGovernment :=
  foldl_tame governmentStep_tame (List.range 15)

theorem sectionResidential_tame : TamePass sectionResidential :=
  foldl_tame residentialStep_tame (List.range 300)

theorem sectionCommercial_tame : TamePass sectionCommercial :=
  foldl_tame commercialStep_tame (List.range 100)

theorem sectionHealthcare_tame : TamePass sectionHealthcare :=
  foldl_tame healthcareStep_tame (List.range 10)

theorem sectionEducation_tame : TamePass sectionEducation :=
  foldl_tame educationStep_tame (List.range 15)

theorem sectionParking_tame : TamePass sectionParking :=
  foldl_tame parkingStep_tame (List.range 20)

theorem sectionTrees_tame : TamePass sectionTrees :=
  foldl_tame treesStep_tame (List.range 800)

theorem sectionClouds_tame : TamePass sectionClouds :=
  foldl_tame cloudsStep_tame (List.range 50)

theorem sectionTrafficLights_tame : TamePass sectionTrafficLights :=
  foldl_tame (fun st g a => foldl_tame (trafficLightStep_tame a) (List.range 11) st g) (List.range 11)

theorem cityPipeline_tame : TamePass cityPipeline := by
  have h1 : TamePass (fun sg => sectionGovernment (sectionDowntown sg)) :=
    tamePass_comp sectionDowntown_tame sectionGovernment_tame
  have h2 : TamePass (fun sg => sectionResidential (sectionGovernment (sectionDowntown sg))) :=
    tamePass_comp h1 sectionResidential_tame
  have h3 : TamePass (fun sg => sectionCommercial (sectionResidential
      (sectionGovernment (sectionDowntown sg)))) :=
    tamePass_comp h2 sectionCommercial_tame
  have h4 : TamePass (fun sg => sectionHealthcare (sectionCommercial (sectionResidential
      (sectionGovernment (sectionDowntown sg))))) :=
    tamePass_comp h3 sectionHealthcare_tame
  have h5 : TamePass (fun sg => sectionEducation (sectionHealthcare (sectionCommercial
      (sectionResidential (sectionGovernment (sectionDowntown sg)))))) :=
    tamePass_comp h4 sectionEducation_tame
  have h6 : TamePass (fun sg => sectionParking (sectionEducation (sectionHealthcare
      (sectionCommercial (sectionResidential (sectionGovernment (sectionDowntown sg))))))) :=
    tamePass_comp h5 sectionParking_tame
  have h7 : TamePass (fun sg => sectionTrees (sectionParking (sectionEducation
      (sectionHealthcare (sectionCommercial (sectionResidential
        (sectionGovernment (sectionDowntown sg)))))))) :=
    tamePass_comp h6 sectionTrees_tame
  have h8 : TamePass (fun sg => sectionClouds (sectionTrees (sectionParking
      (sectionEducation (sectionHealthcare (sectionCommercial (sectionResidential
        (sectionGovernment (sectionDowntown sg))))))))) :=
    tamePass_comp h7 sectionClouds_tame
  have h9 : TamePass (fun sg => sectionTrafficLights (sectionClouds (sectionTrees
      (sectionParking (sectionEducation (sectionHealthcare (sectionCommercial
        (sectionResidential (sectionGovernment (sectionDowntown sg)))))))))) :=
    tamePass_comp h8 sectionTrafficLights_tame
  exact h9

end UrbanDrive

namespace UrbanDrive

theorem downtownStep_ne (sg : WorldState × Gen) (a : ℕ) :
    (downtownStep sg a).1.buildings ≠ [] := by
  rcases sg with ⟨st, g⟩
  simp only [downtownStep, Gen.next]
  rw [addBuilding_buildings]
  simp

theorem sectionDowntown_ne (sg : WorldState × Gen) :
    (sectionDowntown sg).1.buildings ≠ [] := by
  have h80 : List.range 80 = List.range 79 ++ [79] := List.range_succ 79
  unfold sectionDowntown
  rw [h80, List.foldl_append, List.foldl_cons, List.foldl_nil]
  exact downtownStep_ne _ _

theorem tamePass_ne {F : WorldState × Gen → WorldState × Gen} (hF : TamePass F)
    (st : WorldState) (g : Gen) (h : st.buildings ≠ []) :
    (F (st, g)).1.buildings ≠ [] := by
  obtain ⟨-, bs, ts, hbe, -, -, -⟩ := hF st g
  rw [hbe]
  intro hcontra
  exact h (List.append_eq_nil.mp hcontra).1

theorem tamePass_mem {F : WorldState × Gen → WorldState × Gen} (hF : TamePass F)
    (st : WorldState) (g : Gen) (b : Building) (h : b ∈ st.buildings) :
    b ∈ (F (st, g)).1.buildings := by
  obtain ⟨-, bs, ts, hbe, -, -, -⟩ := hF st g
  rw [hbe]
  exact List.mem_append_left _ h

theorem generateCityData_of_populated (rand : ℕ → ℚ) (st : WorldState)
    (h : st.buildings.length > 0) : generateCityData rand st = st := by
  unfold generateCityData
  exact if_pos h

theorem generate_buildings_ne (rand : ℕ → ℚ) (st : WorldState) :
    (generateCityData rand st).buildings ≠ [] := by
  unfold generateCityData
  split_ifs with hlen
  · exact List.ne_nil_of_length_pos hlen
  · unfold cityPipeline
    rcases h1 : sectionDowntown (st, ⟨rand, 0⟩) with ⟨st1, g1⟩
    have hne1 : st1.buildings ≠ [] := by
      have h := sectionDowntown_ne (st, ⟨rand, 0⟩)
      rw [h1] at h
      exact h
    rcases h2 : sectionGovernment (st1, g1) with ⟨st2, g2⟩
    have hne2 : st2.buildings ≠ [] := by
      have h := tamePass_ne sectionGovernment_tame st1 g1 hne1
      rw [h2] at h
      exact h
    rcases h3 : sectionResidential (st2, g2) with ⟨st3, g3⟩
    have hne3 : st3.buildings ≠ [] := by
      have h := tamePass_ne sectionResidential_tame st2 g2 hne2
      rw [h3] at h
      exact h
    rcases h4 : sectionCommercial (st3, g3) with ⟨st4, g4⟩
    have hne4 : st4.buildings ≠ [] := by
      have h := tamePass_ne sectionCommercial_tame st3 g3 hne3
      rw [h4] at h
      exact h
    rcases h5 : sectionHealthcare (st4, g4) with ⟨st5, g5⟩
    have hne5 : st5.buildings ≠ [] := by
      have h := tamePass_ne sectionHealthcare_tame st4 g4 hne4
      rw [h5] at h
      exact h
    rcases h6 : sectionEducation (st5, g5) with ⟨st6, g6⟩
    have hne6 : st6.buildings ≠ [] := by
      have h := tamePass_ne sectionEducation_tame st5 g5 hne5
      rw [h6] at h
      exact h
    rcases h7 : sectionParking (st6, g6) with ⟨st7, g7⟩
    have hne7 : st7.buildings ≠ [] := by
      have h := tamePass_ne sectionParking_tame st6 g6 hne6
      rw [h7] at h
      exact h
    rcases h8 : sectionTrees (st7, g7) with ⟨st8, g8⟩
    have hne8 : st8.buildings ≠ [] := by
      have h := tamePass_ne sectionTrees_tame st7 g7 hne7
      rw [h8] at h
      exact h
    rcases h9 : sectionClouds (st8, g8) with ⟨st9, g9⟩
    have hne9 : st9.buildings ≠ [] := by
      have h := tamePass_ne sectionClouds_tame st8 g8 hne8
      rw [h9] at h
      exact h
    exact tamePass_ne sectionTrafficLights_tame st9 g9 hne9

end UrbanDrive

namespace UrbanDrive

theorem displaceFromRoad_635 : displaceFromRoad 30 60 635 = 635 := by
  unfold displaceFromRoad jsRound
  norm_num

theorem displaceFromRoad_m965 : displaceFromRoad 30 60 (-965) = -965 := by
  unfold displaceFromRoad jsRound
  norm_num

theorem roadDist_hundred : roadDist 100 = 100 := by
  have h := roadDist_int_add 1 (-100) (by norm_num) (by norm_num)
  norm_num at h
  exact h

/-- Under the constant stream, every education-loop iteration appends the
same 120×120 university block at `(635, -965)`. -/
theorem educationStep_const (st : WorldState) (g : Gen) (hg : g.rand = constRand) (a : ℕ) :
    (educationStep (st, g) a).1.buildings = st.buildings ++ [eduCexBuilding] ∧
      (educationStep (st, g) a).2.rand = constRand := by
  constructor
  · simp only [educationStep, Gen.next, hg, constRand]
    rw [addBuilding_buildings]
    congr 1
    unfold placedBuilding eduCexBuilding
    rw [show (800 : ℚ) + (9 / 40 - 0.5) * 600 = 635 by norm_num,
      show (-800 : ℚ) + (9 / 40 - 0.5) * 600 = -965 by norm_num,
      displaceFromRoad_635, displaceFromRoad_m965]
    norm_num
  · simp only [educationStep, Gen.next, hg]

theorem sectionEducation_const_mem (st : WorldState) (g : Gen) (hg : g.rand = constRand) :
    eduCexBuilding ∈ (sectionEducation (st, g)).1.buildings := by
  unfold sectionEducation
  have h15 : List.range 15 = 0 :: List.map Nat.succ (List.range 14) :=
    List.range_succ_eq_map 14
  rw [h15, List.foldl_cons]
  obtain ⟨hb, hr⟩ := educationStep_const st g hg 0
  rcases h0 : educationStep (st, g) 0 with ⟨st1, g1⟩
  rw [h0] at hb hr
  have hmem : eduCexBuilding ∈ st1.buildings := by
    rw [hb]
    exact List.mem_append_right _ (List.mem_singleton_self _)
  obtain ⟨-, bs, ts, hbe, -, -, -⟩ :=
    foldl_tame educationStep_tame (List.map Nat.succ (List.range 14)) st1 g1
  rw [hbe]
  exact List.mem_append_left _ hmem

end UrbanDrive

/-! ## Claim theorems: world generation -/

namespace UrbanDrive

/-- C5 counterexample: under a concrete pseudo-random stream (every draw
`0.225`), world generation from the empty world produces a building — the
120×120 university block centered at `(635, -965)`, left in place by
`addBuilding` because its center is 35 units from the nearest centerlines
— whose footprint overlaps a road cell of the periodic grid (the vertical
road at `x = 600`). -/
theorem generated_building_overlaps_road :
    ∃ b ∈ (generateCityData constRand initialWorld).buildings,
      overlapsRoad b = true := by
  refine ⟨eduCexBuilding, ?_, ?_⟩
  · have hgen : generateCityData constRand initialWorld =
        (cityPipeline (initialWorld, ⟨constRand, 0⟩)).1 := by
      unfold generateCityData
      rw [if_neg (by norm_num [initialWorld])]
    rw [hgen]
    unfold cityPipeline
    rcases h1 : sectionDowntown (initialWorld, ⟨constRand, 0⟩) with ⟨st1, g1⟩
    have hr1 : g1.rand = constRand := by
      have h := (sectionDowntown_tame initialWorld ⟨constRand, 0⟩).1
      rw [h1] at h
      exact h
    rcases h2 : sectionGovernment (st1, g1) with ⟨st2, g2⟩
    have hr2 : g2.rand = constRand := by
      have h := (sectionGovernment_tame st1 g1).1
      rw [h2] at h
      rw [h, hr1]
    rcases h3 : sectionResidential (st2, g2) with ⟨st3, g3⟩
    have hr3 : g3.rand = constRand := by
      have h := (sectionResidential_tame st2 g2).1
      rw [h3] at h
      rw [h, hr2]
    rcases h4 : sectionCommercial (st3, g3) with ⟨st4, g4⟩
    have hr4 : g4.rand = constRand := by
      have h := (sectionCommercial_tame st3 g3).1
      rw [h4] at h
      rw [h, hr3]
    rcases h5 : sectionHealthcare (st4, g4) with ⟨st5, g5⟩
    have hr5 : g5.rand = constRand := by
      have h := (sectionHealthcare_tame st4 g4).1
      rw [h5] at h
      rw [h, hr4]
    have hmem6 : eduCexBuilding ∈ (sectionEducation (st5, g5)).1.buildings :=
      sectionEducation_const_mem st5 g5 hr5
    rcases h6 : sectionEducation (st5, g5) with ⟨st6, g6⟩
    rw [h6] at hmem6
    have hmem7 : eduCexBuilding ∈ (sectionParking (st6, g6)).1.buildings :=
      tamePass_mem sectionParking_tame st6 g6 _ hmem6
    rcases h7 : sectionParking (st6, g6) with ⟨st7, g7⟩
    rw [h7] at hmem7
    have hmem8 : eduCexBuilding ∈ (sectionTrees (st7, g7)).1.buildings :=
      tamePass_mem sectionTrees_tame st7 g7 _ hmem7
    rcases h8 : sectionTrees (st7, g7) with ⟨st8, g8⟩
    rw [h8] at hmem8
    have hmem9 : eduCexBuilding ∈ (sectionClouds (st8, g8)).1.buildings :=
      tamePass_mem sectionClouds_tame st8 g8 _ hmem8
    rcases h9 : sectionClouds (st8, g8) with ⟨st9, g9⟩
    rw [h9] at hmem9
    exact tamePass_mem sectionTrafficLights_tame st9 g9 _ hmem9
  · unfold overlapsRoad
    rw [List.any_eq_true]
    refine ⟨⟨600, 0, 10, 2000⟩, ?_, ?_⟩
    · unfold gridRoads
      rw [List.mem_flatMap]
      refine ⟨13, by simp, ?_⟩
      norm_num [List.mem_append]
    · simp only [rectOverlap, footprint, eduCexBuilding, Bool.and_eq_true,
        decide_eq_true_eq]
      constructor <;> norm_num

/-- C5 amended: generation does not guarantee footprints clear of roads
(see the counterexample); what the displacement does guarantee is a
center margin — every generated building center stays at least 30 units,
and every generated tree center at least 12 units, away from the nearest
road centerline on each horizontal axis. -/
theorem generation_respects_road_margins
    (rand : ℕ → ℚ) (st : WorldState)
    (hb : ∀ b ∈ st.buildings, 30 ≤ roadDist b.px ∧ 30 ≤ roadDist b.pz)
    (ht : ∀ t ∈ st.trees, 12 ≤ roadDist t.x ∧ 12 ≤ roadDist t.z) :
    (∀ b ∈ (generateCityData rand st).buildings,
        30 ≤ roadDist b.px ∧ 30 ≤ roadDist b.pz) ∧
      ∀ t ∈ (generateCityData rand st).trees,
        12 ≤ roadDist t.x ∧ 12 ≤ roadDist t.z := by
  unfold generateCityData
  split_ifs with hlen
  · exact ⟨hb, ht⟩
  · obtain ⟨-, bs, ts, hbe, hte, hgb, hgt⟩ := cityPipeline_tame st ⟨rand, 0⟩
    rw [hbe, hte]
    constructor
    · intro b hmem
      rcases List.mem_append.mp hmem with h | h
      · exact hb b h
      · exact hgb b h
    · intro t hmem
      rcases List.mem_append.mp hmem with h | h
      · exact ht t h
      · exact hgt t h

/-- Witness for the road-margin theorem at a concrete seeded world. -/
theorem generation_respects_road_margins_witness :
    (∀ b ∈ (generateCityData constRand seededWorld).buildings,
        30 ≤ roadDist b.px ∧ 30 ≤ roadDist b.pz) ∧
      ∀ t ∈ (generateCityData constRand seededWorld).trees,
        12 ≤ roadDist t.x ∧ 12 ≤ roadDist t.z :=
  generation_respects_road_margins constRand seededWorld
    (by
      intro b hmem
      rw [show seededWorld.buildings = [⟨100, 5, 100, 10, 10, 10, 0, 0⟩] from rfl,
        List.mem_singleton] at hmem
      subst hmem
      rw [show (⟨100, 5, 100, 10, 10, 10, 0, 0⟩ : Building).px = 100 from rfl,
        show (⟨100, 5, 100, 10, 10, 10, 0, 0⟩ : Building).pz = 100 from rfl,
        roadDist_hundred]
      norm_num)
    (by
      intro t hmem
      rw [show seededWorld.trees = [⟨100, 100, 1⟩] from rfl,
        List.mem_singleton] at hmem
      subst hmem
      rw [show (⟨100, 100, 1⟩ : TreeItem).x = 100 from rfl,
        show (⟨100, 100, 1⟩ : TreeItem).z = 100 from rfl,
        roadDist_hundred]
      norm_num)

/-- C9: world generation is idempotent within a session: a second
invocation, with any pseudo-random stream, returns the world unchanged,
because the first invocation always leaves the buildings collection
populated and the generator is guarded by the already-populated check. -/
theorem generateCityData_idempotent (r1 r2 : ℕ → ℚ) (st : WorldState) :
    generateCityData r2 (generateCityData r1 st) = generateCityData r1 st :=
  generateCityData_of_populated r2 _
    (List.length_pos.mpr (generate_buildings_ne r1 st))

end UrbanDrive
